import Mathlib

/-!
Verification of the kisandecks farmer-services backend (src/routes.ts,
src/schema.ts) against its natural-language specification.

The embedding models the authentication routes, the in-memory OTP ledgers
and the financial calculators as pure Lean functions.  JavaScript numbers
are modelled as rationals; a request field that is missing or fails to
parse as a number is modelled as none.  Math.round on a nonnegative double
is floor (x + 1/2), which coincides with Mathlib round on the rationals.
Timestamps are integers (milliseconds).
-/

namespace Kisandecks

/-- Models the idiom parseFloat(x) || d used by every calculator route of
src/routes.ts: a missing or non-numeric field (parseFloat gives NaN) and a
field that parses to 0 are both falsy in JavaScript, so the default d is
used; any other parsed value is kept. -/
def jsOr (d : ℚ) : Option ℚ → ℚ
  | none => d
  | some q => if q = 0 then d else q

/-- Same idiom for a field used as a whole number of months; the source
applies parseFloat(tenure) || 1 and then Math.pow with that exponent.  The
embedding covers whole tenures, which is the only case the specification
speaks about. -/
def jsOrNat (d : ℕ) : Option ℕ → ℕ
  | none => d
  | some k => if k = 0 then d else k

/-! ## Loan EMI calculator (POST /api/calculator/loan-emi) -/

/-- Request body of POST /api/calculator/loan-emi after JSON parsing. -/
structure LoanEmiInput where
  loanAmount : Option ℚ
  interestRate : Option ℚ
  tenure : Option ℕ
deriving DecidableEq

/-- Core arithmetic of the loan-emi route: monthlyRate = annualRate/12/100;
if monthlyRate > 0 then EMI = P * r * (1+r)^n / ((1+r)^n - 1) else
EMI = P / n; totalPayment = EMI * n; totalInterest = totalPayment - P.
Returns (emi, totalPayment, totalInterest). -/
def loanEmiCore (principal annualRate : ℚ) (months : ℕ) : ℚ × ℚ × ℚ :=
  let monthlyRate := annualRate / 12 / 100
  let emi :=
    if 0 < monthlyRate then
      let powerTerm := (1 + monthlyRate) ^ months
      principal * monthlyRate * powerTerm / (powerTerm - 1)
    else
      principal / (months : ℚ)
  let totalPayment := emi * (months : ℚ)
  (emi, totalPayment, totalPayment - principal)

/-- Rounded result object of the loan-emi route. -/
structure LoanEmiResult where
  monthlyEMI : ℤ
  totalInterest : ℤ
  totalPayment : ℤ
deriving DecidableEq

/-- Full loan-emi route: parse with defaults (principal 0, annualRate 0,
months 1), compute, round each monetary output. -/
def loanEmi (i : LoanEmiInput) : LoanEmiResult :=
  let principal := jsOr 0 i.loanAmount
  let annualRate := jsOr 0 i.interestRate
  let months := jsOrNat 1 i.tenure
  let r := loanEmiCore principal annualRate months
  ⟨round r.1, round r.2.2, round r.2.1⟩

/-! ## Crop-cost calculator (POST /api/calculator/crop-cost) -/

/-- Cost categories of the crop-cost calculator.  The source builds its
costCategories array from the first five only; other appears in the
breakdown but not in the highest-cost reduction. -/
inductive CostCategory where
  | seed
  | fertilizer
  | pesticide
  | labour
  | irrigation
  | other
deriving DecidableEq, Repr

/-- Request body of POST /api/calculator/crop-cost (numeric fields). -/
structure CropCostInput where
  landSize : Option ℚ
  seedCost : Option ℚ
  fertilizerCost : Option ℚ
  pesticideCost : Option ℚ
  labourCost : Option ℚ
  irrigationCost : Option ℚ
  otherCost : Option ℚ
deriving DecidableEq

/-- Parsed field values of the crop-cost route: land defaults to 1, every
cost component defaults to 0. -/
structure CropCostParsed where
  land : ℚ
  seed : ℚ
  fertilizer : ℚ
  pesticide : ℚ
  labour : ℚ
  irrigation : ℚ
  other : ℚ
deriving DecidableEq

/-- Field parsing of the crop-cost route. -/
def parseCropCost (i : CropCostInput) : CropCostParsed :=
  ⟨jsOr 1 i.landSize, jsOr 0 i.seedCost, jsOr 0 i.fertilizerCost,
   jsOr 0 i.pesticideCost, jsOr 0 i.labourCost, jsOr 0 i.irrigationCost,
   jsOr 0 i.otherCost⟩

/-- Sum of the six cost components. -/
def cropCostTotal (p : CropCostParsed) : ℚ :=
  p.seed + p.fertilizer + p.pesticide + p.labour + p.irrigation + p.other

/-- Percentage of one component: Math.round(component / total * 100) when
total > 0, else 0. -/
def componentPercent (total component : ℚ) : ℤ :=
  if 0 < total then round (component / total * 100) else 0

/-- The costCategories array of the source, in source order.  The other
component is absent, exactly as in src/routes.ts. -/
def costCategories (p : CropCostParsed) : List (CostCategory × ℚ) :=
  [(CostCategory.seed, p.seed), (CostCategory.fertilizer, p.fertilizer),
   (CostCategory.pesticide, p.pesticide), (CostCategory.labour, p.labour),
   (CostCategory.irrigation, p.irrigation)]

/-- One step of costCategories.reduce((a, b) => a.value > b.value ? a : b). -/
def reduceStep (a b : CostCategory × ℚ) : CostCategory × ℚ :=
  if a.2 > b.2 then a else b

/-- The highestCost computation of the crop-cost route: JavaScript reduce
without an initial value is a left fold seeded with the first element. -/
def highestCost (p : CropCostParsed) : CostCategory × ℚ :=
  List.foldl reduceStep (CostCategory.seed, p.seed)
    [(CostCategory.fertilizer, p.fertilizer),
     (CostCategory.pesticide, p.pesticide), (CostCategory.labour, p.labour),
     (CostCategory.irrigation, p.irrigation)]

/-- Data interpolated into the crop-cost tips strings (the prose around it
is constant text and carries no further state). -/
structure CropCostTips where
  highestName : CostCategory
  highestPercent : ℤ
  totalCost : ℤ
  costPerAcre : ℤ
deriving DecidableEq

/-- Response of the crop-cost route.  breakdown lists the numeric value of
each of the nine formatted steps of the source, in order. -/
structure CropCostResponse where
  status : ℕ
  totalCost : ℤ
  costPerAcre : ℤ
  seedCost : ℤ
  fertilizerCost : ℤ
  labourCost : ℤ
  breakdown : List ℚ
  tips : CropCostTips
deriving DecidableEq

/-- Full crop-cost route.  The handler never rejects a body: every field is
parsed with a default, so the status is always 200 (the catch-all 500 of
the source guards only runtime exceptions, which the pure body cannot
raise). -/
def cropCostHandler (i : CropCostInput) : CropCostResponse :=
  let p := parseCropCost i
  let totalCost := cropCostTotal p
  let costPerAcre := round (totalCost / p.land)
  let h := highestCost p
  { status := 200
    totalCost := round totalCost
    costPerAcre := costPerAcre
    seedCost := round p.seed
    fertilizerCost := round p.fertilizer
    labourCost := round p.labour
    breakdown := [p.land, p.seed, p.fertilizer, p.pesticide, p.labour,
      p.irrigation, p.other, ((round totalCost : ℤ) : ℚ),
      ((costPerAcre : ℤ) : ℚ)]
    tips := ⟨h.1, componentPercent totalCost h.2, round totalCost,
      costPerAcre⟩ }

/-! ## Labour calculator (POST /api/calculator/labour) -/

/-- Request body of POST /api/calculator/labour. -/
structure LabourInput where
  labourCount : Option ℚ
  ratePerDay : Option ℚ
  days : Option ℚ
deriving DecidableEq

/-- Response of the labour route; savingTipHighRate records which branch of
the saving tip is chosen (dailyRate > 400). -/
structure LabourResponse where
  status : ℕ
  totalLabourCost : ℤ
  costPerDay : ℤ
  costPerWorkerDay : ℤ
  breakdown : List ℚ
  savingTipHighRate : Bool
deriving DecidableEq

/-- Full labour route: count defaults to 1, dailyRate to 350, days to 1;
totalCost = count * dailyRate * d; costPerDay = count * dailyRate. -/
def labourHandler (i : LabourInput) : LabourResponse :=
  let count := jsOr 1 i.labourCount
  let dailyRate := jsOr 350 i.ratePerDay
  let d := jsOr 1 i.days
  let totalCost := count * dailyRate * d
  let costPerDay := count * dailyRate
  { status := 200
    totalLabourCost := round totalCost
    costPerDay := round costPerDay
    costPerWorkerDay := round dailyRate
    breakdown := [count, dailyRate, d, ((round totalCost : ℤ) : ℚ)]
    savingTipHighRate := decide (400 < dailyRate) }

/-! ## Pesticide calculator (POST /api/calculator/pesticide) -/

/-- Request body of POST /api/calculator/pesticide. -/
structure PesticideInput where
  pesticideQuantity : Option ℚ
  waterQuantity : Option ℚ
  tankSize : Option ℚ
deriving DecidableEq

/-- Parsed pesticide quantity: default 100. -/
def pesticideQty (i : PesticideInput) : ℚ := jsOr 100 i.pesticideQuantity

/-- Parsed water quantity: default 200. -/
def pesticideWater (i : PesticideInput) : ℚ := jsOr 200 i.waterQuantity

/-- Parsed tank size: default 16. -/
def pesticideTank (i : PesticideInput) : ℚ := jsOr 16 i.tankSize

/-- Response of the pesticide route. -/
structure PesticideResponse where
  status : ℕ
  pesticidePerTank : ℤ
  tanksNeeded : ℤ
  dilution : ℤ
  totalCost : ℤ
  costPerTank : ℤ
deriving DecidableEq

/-- Full pesticide route: pesticidePerTank = round(pesticide/water * tank);
tanksNeeded = ceil(water/tank); dilution denominator =
round(water*1000/pesticide); totalCost = round(pesticide*5);
costPerTank = round(pesticidePerTank*5). -/
def pesticideHandler (i : PesticideInput) : PesticideResponse :=
  let pesticide := pesticideQty i
  let water := pesticideWater i
  let tank := pesticideTank i
  let perTank := round (pesticide / water * tank)
  { status := 200
    pesticidePerTank := perTank
    tanksNeeded := ⌈water / tank⌉
    dilution := round (water * 1000 / pesticide)
    totalCost := round (pesticide * 5)
    costPerTank := round ((perTank : ℚ) * 5) }

/-! ## Credentials and password checks -/

/-- Stored credential of an account.  The source stores a single string;
a bcrypt digest always starts with a dollar-2 prefix, so the embedding
keeps the two shapes apart as constructors.  bcrypt p stands for the
bcrypt digest of the password p; legacy s is a pre-existing plaintext
string (which, being a plain password, does not start with that prefix). -/
inductive StoredCred where
  | bcrypt (ofPassword : String)
  | legacy (plaintext : String)
deriving DecidableEq

/-- The test password.startsWith of the dollar-2 prefix used by the admin
and expert login routes to recognise a hash. -/
def startsWithHashPrefix : StoredCred → Bool
  | StoredCred.bcrypt _ => true
  | StoredCred.legacy _ => false

/-- bcrypt.compare(password, stored): true exactly when stored is the
bcrypt digest of password; comparing against a string that is not a bcrypt
digest yields false. -/
def bcryptCompare (password : String) : StoredCred → Bool
  | StoredCred.bcrypt p => password == p
  | StoredCred.legacy _ => false

/-- Direct string comparison stored === password of the source; for a
digest the supplied password would have to equal the digest string itself,
which no plaintext password does in the embedding (digests are opaque). -/
def plainCompare (password : String) : StoredCred → Bool
  | StoredCred.bcrypt _ => false
  | StoredCred.legacy s => password == s

/-- Dual-path check of the admin and expert login routes:
stored.startsWith dollar-2 ? bcrypt.compare : direct equality. -/
def dualCheck (password : String) (c : StoredCred) : Bool :=
  if startsWithHashPrefix c then bcryptCompare password c
  else plainCompare password c

/-! ## Accounts and login routes -/

/-- Admin record (fields the login route reads). -/
structure Admin where
  id : ℕ
  password : StoredCred
deriving DecidableEq

/-- Expert record (fields the login route reads). -/
structure Expert where
  id : ℕ
  password : StoredCred
  isActive : Bool
  status : String
deriving DecidableEq

/-- Farmer record (fields the auth routes read). -/
structure Farmer where
  id : ℕ
  password : StoredCred
  isActive : Bool
deriving DecidableEq

/-- Outcome of a login route, abstracting the HTTP status and error body. -/
inductive LoginOutcome where
  | validationError
  | invalidCredentials
  | disabled
  | notApproved
  | ok (id : ℕ)
deriving DecidableEq, Repr

/-- POST /api/admin/login: loginSchema requires nonempty username and
password; lookup by username; dual-path password check; session on
success. -/
def adminLogin (admins : String → Option Admin) (username password : String) :
    LoginOutcome :=
  if username = "" ∨ password = "" then LoginOutcome.validationError
  else
    match admins username with
    | none => LoginOutcome.invalidCredentials
    | some a =>
      if dualCheck password a.password then LoginOutcome.ok a.id
      else LoginOutcome.invalidCredentials

/-- POST /api/expert/login: like admin login, then the isActive and
status = approved gates, in that order. -/
def expertLogin (experts : String → Option Expert) (username password : String) :
    LoginOutcome :=
  if username = "" ∨ password = "" then LoginOutcome.validationError
  else
    match experts username with
    | none => LoginOutcome.invalidCredentials
    | some e =>
      if ¬ dualCheck password e.password then LoginOutcome.invalidCredentials
      else if ¬ e.isActive then LoginOutcome.disabled
      else if e.status ≠ "approved" then LoginOutcome.notApproved
      else LoginOutcome.ok e.id

/-- farmerLoginSchema of src/schema.ts: phone length between 10 and 15,
password length at least 4. -/
def farmerLoginValid (phone password : String) : Bool :=
  decide (10 ≤ phone.length) && decide (phone.length ≤ 15) &&
    decide (4 ≤ password.length)

/-- POST /api/farmer/login: schema check, lookup by phone, then only
bcrypt.compare(password, farmer.password) — no plaintext branch — then the
isActive gate. -/
def farmerLogin (farmers : String → Option Farmer) (phone password : String) :
    LoginOutcome :=
  if ¬ farmerLoginValid phone password then LoginOutcome.validationError
  else
    match farmers phone with
    | none => LoginOutcome.invalidCredentials
    | some f =>
      if ¬ bcryptCompare password f.password then
        LoginOutcome.invalidCredentials
      else if ¬ f.isActive then LoginOutcome.disabled
      else LoginOutcome.ok f.id

/-! ## Farmer registration (POST /api/farmer/register) -/

/-- farmerRegisterSchema of src/schema.ts restricted to the two required
fields: phone is any string of length 10 to 15 and password any string of
length at least 4 (name, village, district, state and language are
optional and unconstrained strings). -/
def farmerRegisterValid (phone password : String) : Bool :=
  decide (10 ≤ phone.length) && decide (phone.length ≤ 15) &&
    decide (4 ≤ password.length)

/-- Outcome of the register route. -/
inductive RegisterOutcome where
  | validationError
  | duplicatePhone
  | created (id : ℕ)
deriving DecidableEq, Repr

/-- POST /api/farmer/register: schema validation, duplicate-phone check,
then creation with the bcrypt digest of the supplied password and
isActive defaulting to true.  Returns the outcome and the farmer store
after the request. -/
def registerFarmer (farmers : String → Option Farmer) (newId : ℕ)
    (phone password : String) :
    RegisterOutcome × (String → Option Farmer) :=
  if ¬ farmerRegisterValid phone password then
    (RegisterOutcome.validationError, farmers)
  else
    match farmers phone with
    | some _ => (RegisterOutcome.duplicatePhone, farmers)
    | none =>
      (RegisterOutcome.created newId,
        fun p => if p = phone then
          some ⟨newId, StoredCred.bcrypt password, true⟩ else farmers p)

/-- The 10-digit Indian mobile regular expression of the OTP send routes
(and the pattern named by the specification for registration): exactly ten
characters, all decimal digits, the first between 6 and 9. -/
def indianMobile (s : String) : Bool :=
  match s.toList with
  | [] => false
  | c :: _ =>
    (decide ('6' ≤ c) && decide (c ≤ '9')) && s.toList.all Char.isDigit &&
      decide (s.length = 10)

/-! ## OTP ledgers

Two process-local maps of src/routes.ts: loginOtpStore for the login-OTP
flow and otpStore for the forgot-password flow, both keyed by phone.
Stores are modelled as functions from phone to an optional entry; time is
an integer count of milliseconds. -/

/-- Entry of loginOtpStore. -/
structure LoginOtpEntry where
  otp : String
  expiresAt : ℤ
deriving DecidableEq

/-- Entry of otpStore (forgot-password flow). -/
structure ResetOtpEntry where
  otp : String
  expiresAt : ℤ
  verified : Bool
deriving DecidableEq

/-- Map update, Map.prototype.set of one key. -/
def storeSet {α : Type} (st : String → Option α) (phone : String) (e : α) :
    String → Option α :=
  fun p => if p = phone then some e else st p

/-- Map removal, Map.prototype.delete of one key. -/
def storeErase {α : Type} (st : String → Option α) (phone : String) :
    String → Option α :=
  fun p => if p = phone then none else st p

/-- OTP lifetime of both send routes: 10 minutes in milliseconds. -/
def otpLifetime : ℤ := 10 * 60 * 1000

/-- Outcome of a send-OTP route; sent carries the devOtp field of the JSON
response, which the source includes only when NODE_ENV is not
production. -/
inductive SendOtpOutcome where
  | invalidPhone
  | accountNotFound
  | sent (devOtp : Option String)
deriving DecidableEq, Repr

/-- POST /api/farmer/login/send-otp.  The generated random code is passed
in as otp (randomness is external to the embedding); env is NODE_ENV.
Validates the phone against the 6-to-9 ten-digit pattern, requires an
existing farmer, then overwrites the login-OTP entry for that phone with
expiry now + 10 minutes. -/
def loginSendOtp (st : String → Option LoginOtpEntry)
    (farmers : String → Option Farmer) (phone otp : String) (now : ℤ)
    (env : String) :
    SendOtpOutcome × (String → Option LoginOtpEntry) :=
  if ¬ indianMobile phone then (SendOtpOutcome.invalidPhone, st)
  else
    match farmers phone with
    | none => (SendOtpOutcome.accountNotFound, st)
    | some _ =>
      (SendOtpOutcome.sent (if env ≠ "production" then some otp else none),
        storeSet st phone ⟨otp, now + otpLifetime⟩)

/-- POST /api/farmer/forgot-password/send-otp: identical shape, into
otpStore, with verified initialised to false. -/
def resetSendOtp (st : String → Option ResetOtpEntry)
    (farmers : String → Option Farmer) (phone otp : String) (now : ℤ)
    (env : String) :
    SendOtpOutcome × (String → Option ResetOtpEntry) :=
  if ¬ indianMobile phone then (SendOtpOutcome.invalidPhone, st)
  else
    match farmers phone with
    | none => (SendOtpOutcome.accountNotFound, st)
    | some _ =>
      (SendOtpOutcome.sent (if env ≠ "production" then some otp else none),
        storeSet st phone ⟨otp, now + otpLifetime, false⟩)

/-- Outcome of a verify-OTP route. -/
inductive VerifyOtpOutcome where
  | missingFields
  | notFound
  | expired
  | mismatch
  | farmerMissing
  | disabled
  | success (farmerId : ℕ)
deriving DecidableEq, Repr

/-- POST /api/farmer/login/verify-otp: missing fields, then lookup
(notFound), then the expiry gate now > expiresAt which deletes the entry,
then code comparison (entry retained on mismatch), then the farmer lookup
and isActive gate; on success the entry is deleted and a session is
established.  Returns the outcome and the store after the request. -/
def loginVerifyOtp (st : String → Option LoginOtpEntry)
    (farmers : String → Option Farmer) (now : ℤ) (phone otp : String) :
    VerifyOtpOutcome × (String → Option LoginOtpEntry) :=
  if phone = "" ∨ otp = "" then (VerifyOtpOutcome.missingFields, st)
  else
    match st phone with
    | none => (VerifyOtpOutcome.notFound, st)
    | some entry =>
      if entry.expiresAt < now then
        (VerifyOtpOutcome.expired, storeErase st phone)
      else if entry.otp ≠ otp then (VerifyOtpOutcome.mismatch, st)
      else
        match farmers phone with
        | none => (VerifyOtpOutcome.farmerMissing, st)
        | some f =>
          if ¬ f.isActive then (VerifyOtpOutcome.disabled, st)
          else (VerifyOtpOutcome.success f.id, storeErase st phone)

/-- POST /api/farmer/forgot-password/verify-otp: same gates up to the code
comparison; on success the entry is re-stored with verified set to true
(same code and expiry), not deleted, and no farmer lookup happens. -/
def resetVerifyOtp (st : String → Option ResetOtpEntry) (now : ℤ)
    (phone otp : String) :
    VerifyOtpOutcome × (String → Option ResetOtpEntry) :=
  if phone = "" ∨ otp = "" then (VerifyOtpOutcome.missingFields, st)
  else
    match st phone with
    | none => (VerifyOtpOutcome.notFound, st)
    | some entry =>
      if entry.expiresAt < now then
        (VerifyOtpOutcome.expired, storeErase st phone)
      else if entry.otp ≠ otp then (VerifyOtpOutcome.mismatch, st)
      else
        (VerifyOtpOutcome.success 0,
          storeSet st phone ⟨entry.otp, entry.expiresAt, true⟩)

/-- Outcome of the reset-password route. -/
inductive ResetOutcome where
  | missingFields
  | passwordTooShort
  | notVerified
  | mismatch
  | farmerMissing
  | success
deriving DecidableEq, Repr

/-- POST /api/farmer/forgot-password/reset: missing fields, password length
at least 8, entry present and verified, code equality, farmer lookup; on
success the farmer password becomes the bcrypt digest of newPassword and
the entry is deleted.  The route reads no clock: no expiry gate appears in
the source.  Returns the outcome, the OTP store after the request and the
farmer store after the request. -/
def resetPassword (st : String → Option ResetOtpEntry)
    (farmers : String → Option Farmer) (phone otp newPassword : String) :
    ResetOutcome × (String → Option ResetOtpEntry) ×
      (String → Option Farmer) :=
  if phone = "" ∨ otp = "" ∨ newPassword = "" then
    (ResetOutcome.missingFields, st, farmers)
  else if newPassword.length < 8 then
    (ResetOutcome.passwordTooShort, st, farmers)
  else
    match st phone with
    | none => (ResetOutcome.notVerified, st, farmers)
    | some entry =>
      if ¬ entry.verified then (ResetOutcome.notVerified, st, farmers)
      else if entry.otp ≠ otp then (ResetOutcome.mismatch, st, farmers)
      else
        match farmers phone with
        | none => (ResetOutcome.farmerMissing, st, farmers)
        | some f =>
          (ResetOutcome.success, storeErase st phone,
            storeSet farmers phone
              ⟨f.id, StoredCred.bcrypt newPassword, f.isActive⟩)

/-! ## Specification-side definitions

These definitions follow the words of the specification (not the source)
and exist to be compared with the source-derived definitions above. -/

/-- Modelled from the claim wording for the highest-cost category: one
comparison step of an arg-max in which an earlier element is kept on ties
(a later element wins only when strictly greater). -/
def argmaxFirstStep (a b : CostCategory × ℚ) : CostCategory × ℚ :=
  if b.2 > a.2 then b else a

/-- Modelled from the claim wording: the arg-max over all six cost
components — seed, fertilizer, pesticide, labour, irrigation, other —
by raw value, ties broken in favour of the first-listed category. -/
def specHighestSix (p : CropCostParsed) : CostCategory × ℚ :=
  List.foldl argmaxFirstStep (CostCategory.seed, p.seed)
    [(CostCategory.fertilizer, p.fertilizer),
     (CostCategory.pesticide, p.pesticide), (CostCategory.labour, p.labour),
     (CostCategory.irrigation, p.irrigation),
     (CostCategory.other, p.other)]

/-- Arg-max of a list by raw value in which ties are broken in favour of
the later-listed element: the head wins against the best of the rest only
when strictly greater. -/
def lastArgmax : List (CostCategory × ℚ) → Option (CostCategory × ℚ)
  | [] => none
  | c :: t =>
    match lastArgmax t with
    | none => some c
    | some m => some (if c.2 > m.2 then c else m)

/-- The left fold of the source reduce computes exactly the later-wins
arg-max of the seeded list. -/
theorem foldl_reduceStep_lastArgmax (l : List (CostCategory × ℚ))
    (a : CostCategory × ℚ) :
    some (List.foldl reduceStep a l) = lastArgmax (a :: l) := by
  induction l generalizing a with
  | nil => simp [lastArgmax]
  | cons b t ih =>
    rw [List.foldl_cons, ih]
    show lastArgmax (reduceStep a b :: t) = lastArgmax (a :: b :: t)
    simp only [lastArgmax]
    rcases h : lastArgmax t with _ | m <;> simp only [reduceStep] <;>
      split_ifs <;> simp_all <;> linarith


/-- Value of the source fold is an upper bound of its seed and of every
listed value. -/
theorem le_foldl_reduceStep (l : List (CostCategory × ℚ))
    (a : CostCategory × ℚ) :
    a.2 ≤ (List.foldl reduceStep a l).2 ∧
      ∀ b ∈ l, b.2 ≤ (List.foldl reduceStep a l).2 := by
  induction l generalizing a with
  | nil => simp
  | cons b t ih =>
    have hab : a.2 ≤ (reduceStep a b).2 ∧ b.2 ≤ (reduceStep a b).2 := by
      simp only [reduceStep]
      split_ifs with h
      · exact ⟨le_refl _, le_of_lt h⟩
      · exact ⟨le_of_not_lt h, le_refl _⟩
    rw [List.foldl_cons]
    refine ⟨le_trans hab.1 (ih (reduceStep a b)).1, ?_⟩
    intro c hc
    rcases List.mem_cons.mp hc with hcb | hct
    · rw [hcb]
      exact le_trans hab.2 (ih (reduceStep a b)).1
    · exact (ih (reduceStep a b)).2 c hct

/-! ## Claim theorems -/

/-- Request of the loan-emi example of the specification:
P = 100000, annualRate = 10, tenure = 12 months. -/
def loanExample : LoanEmiInput := ⟨some 100000, some 10, some 12⟩

/-- Evaluation of the loan-emi route on the example of the specification:
the exact EMI is 8791.58..., so the rounded outputs are 8792, 5499 and
105499. -/
theorem loanExample_eval : loanEmi loanExample = ⟨8792, 5499, 105499⟩ := by
  simp only [loanEmi, loanExample, jsOr, jsOrNat, loanEmiCore]
  norm_num [round_eq]

/-- C6 (confirmed).  The loan-emi route computes
EMI = P * r * (1+r)^n / ((1+r)^n - 1) with r = annualRate/12/100 and n the
tenure in months whenever r > 0, EMI = P/n when r = 0,
totalPayment = EMI * n and totalInterest = totalPayment - P; on
P = 100000, annualRate = 10, tenure = 12 the rounded outputs are within 1
of 8792, 105500 and 5500 respectively. -/
theorem loanEmi_spec (P rA : ℚ) (n : ℕ) :
    (0 < rA / 12 / 100 →
      (loanEmiCore P rA n).1 =
        P * (rA / 12 / 100) * (1 + rA / 12 / 100) ^ n /
          ((1 + rA / 12 / 100) ^ n - 1)) ∧
    (rA = 0 → (loanEmiCore P rA n).1 = P / (n : ℚ)) ∧
    (loanEmiCore P rA n).2.1 = (loanEmiCore P rA n).1 * (n : ℚ) ∧
    (loanEmiCore P rA n).2.2 = (loanEmiCore P rA n).2.1 - P ∧
    |(loanEmi loanExample).monthlyEMI - 8792| ≤ 1 ∧
    |(loanEmi loanExample).totalPayment - 105500| ≤ 1 ∧
    |(loanEmi loanExample).totalInterest - 5500| ≤ 1 := by
  refine ⟨fun h => ?_, fun h => ?_, rfl, rfl, ?_, ?_, ?_⟩
  · simp only [loanEmiCore, if_pos h]
  · simp only [loanEmiCore, h, zero_div, lt_self_iff_false, if_false]
  all_goals rw [loanExample_eval]; decide

/-- Witness for loanEmi_spec at P = 100000, rA = 10, n = 12 (positive-rate
branch) and rA = 0 (degenerate branch). -/
theorem loanEmi_spec_witness :
    (0 < (10 : ℚ) / 12 / 100 ∧
      (loanEmiCore 100000 10 12).1 =
        100000 * ((10 : ℚ) / 12 / 100) * (1 + (10 : ℚ) / 12 / 100) ^ 12 /
          ((1 + (10 : ℚ) / 12 / 100) ^ 12 - 1)) ∧
    (loanEmiCore 100000 0 12).1 = 100000 / (12 : ℚ) := by
  refine ⟨⟨by norm_num, (loanEmi_spec 100000 10 12).1 (by norm_num)⟩, ?_⟩
  exact (loanEmi_spec 100000 0 12).2.1 rfl

/-- Crop-cost example of the specification: seed 1000, fertilizer 2000,
pesticide 500, labour 3000, irrigation 1500, other 0, landSize 2. -/
def cropExample : CropCostInput :=
  ⟨some 2, some 1000, some 2000, some 500, some 3000, some 1500, some 0⟩

/-- Crop-cost input refuting the six-component arg-max: same as the
example but with other = 5000, the largest component. -/
def cropOtherMax : CropCostInput :=
  ⟨some 2, some 1000, some 2000, some 500, some 3000, some 1500, some 5000⟩

/-- C7 counterexample.  On seed 1000, fertilizer 2000, pesticide 500,
labour 3000, irrigation 1500, other 5000 the route reports labour as the
highest cost category although other, at 5000, is the arg-max over all six
components the claim prescribes: the source reduces over an array that
omits other. -/
theorem highestCost_omits_other :
    (highestCost (parseCropCost cropOtherMax)).1 = CostCategory.labour ∧
    (specHighestSix (parseCropCost cropOtherMax)).1 = CostCategory.other ∧
    (highestCost (parseCropCost cropOtherMax)).1 ≠
      (specHighestSix (parseCropCost cropOtherMax)).1 := by
  have h1 : highestCost (parseCropCost cropOtherMax) =
      (CostCategory.labour, 3000) := by
    simp only [highestCost, parseCropCost, cropOtherMax, jsOr, reduceStep,
      List.foldl]
    norm_num
  have h2 : specHighestSix (parseCropCost cropOtherMax) =
      (CostCategory.other, 5000) := by
    simp only [specHighestSix, parseCropCost, cropOtherMax, jsOr,
      argmaxFirstStep, List.foldl]
    norm_num
  refine ⟨by rw [h1], by rw [h2], by rw [h1, h2]; decide⟩

/-- C7 (corrected).  The reported highest-cost category is the arg-max by
raw value over the five components seed, fertilizer, pesticide, labour and
irrigation — the other component is excluded — with ties broken in favour
of the later-listed category (the reduce keeps the accumulator only when
strictly greater); its value bounds every listed component, and the
specification example (seed 1000, fertilizer 2000, pesticide 500, labour
3000, irrigation 1500, other 0, landSize 2) yields labour at 38 percent
with total 8000 and 4000 per acre. -/
theorem highestCost_spec (i : CropCostInput) :
    some (highestCost (parseCropCost i)) =
      lastArgmax (costCategories (parseCropCost i)) ∧
    (∀ c ∈ costCategories (parseCropCost i),
      c.2 ≤ (highestCost (parseCropCost i)).2) ∧
    (cropCostHandler cropExample).tips =
      ⟨CostCategory.labour, 38, 8000, 4000⟩ := by
  refine ⟨foldl_reduceStep_lastArgmax _ _, ?_, ?_⟩
  · intro c hc
    have h := le_foldl_reduceStep
      [(CostCategory.fertilizer, (parseCropCost i).fertilizer),
       (CostCategory.pesticide, (parseCropCost i).pesticide),
       (CostCategory.labour, (parseCropCost i).labour),
       (CostCategory.irrigation, (parseCropCost i).irrigation)]
      (CostCategory.seed, (parseCropCost i).seed)
    rcases List.mem_cons.mp hc with h1 | h2
    · rw [h1]; exact h.1
    · exact h.2 c h2
  · simp only [cropCostHandler, cropExample, parseCropCost, jsOr,
      cropCostTotal, highestCost, reduceStep, componentPercent, List.foldl]
    norm_num [round_eq]

/-- Witness for highestCost_spec: on the specification example the labour
component is listed and bounded by the reported highest value. -/
theorem highestCost_spec_witness :
    (CostCategory.labour, (3000 : ℚ)) ∈
      costCategories (parseCropCost cropExample) ∧
    (3000 : ℚ) ≤ (highestCost (parseCropCost cropExample)).2 := by
  have hm : (CostCategory.labour, (3000 : ℚ)) ∈
      costCategories (parseCropCost cropExample) := by
    simp only [costCategories, parseCropCost, cropExample, jsOr]
    norm_num
  exact ⟨hm, (highestCost_spec cropExample).2.1 _ hm⟩

/-- The default survives exactly the falsy inputs: a missing field and a
zero field both give the default. -/
theorem jsOr_none_or_zero (d : ℚ) : jsOr d none = d ∧ jsOr d (some 0) = d :=
  ⟨rfl, by simp [jsOr]⟩

/-- A nonzero default makes the parsed value nonzero for every input. -/
theorem jsOr_ne_zero (d : ℚ) (hd : d ≠ 0) (v : Option ℚ) : jsOr d v ≠ 0 := by
  cases v with
  | none => exact hd
  | some q =>
    simp only [jsOr]
    split_ifs with h
    · exact hd
    · exact h

/-- C8 (confirmed).  Every request to the modelled calculator routes gets
status 200 with a full breakdown: fields are parsed with defaults, no
validation rejects a body, so no 4xx is ever produced (the catch-all 500
of the source covers only runtime exceptions, outside the pure body).
On an empty body every field takes its documented default. -/
theorem calculators_always_200 (i : CropCostInput) (j : LabourInput)
    (k : PesticideInput) :
    (cropCostHandler i).status = 200 ∧ (labourHandler j).status = 200 ∧
    (pesticideHandler k).status = 200 ∧
    (cropCostHandler i).breakdown.length = 9 ∧
    (labourHandler j).breakdown.length = 4 ∧
    parseCropCost ⟨none, none, none, none, none, none, none⟩ =
      ⟨1, 0, 0, 0, 0, 0, 0⟩ ∧
    labourHandler ⟨none, none, none⟩ =
      ⟨200, 350, 350, 350, [1, 350, 1, 350], false⟩ ∧
    pesticideQty ⟨none, none, none⟩ = 100 ∧
    pesticideWater ⟨none, none, none⟩ = 200 ∧
    pesticideTank ⟨none, none, none⟩ = 16 := by
  refine ⟨rfl, rfl, rfl, rfl, rfl, rfl, ?_, rfl, rfl, rfl⟩
  simp only [labourHandler, jsOr, LabourResponse.mk.injEq]
  norm_num [round_eq]

/-- C10 (confirmed).  The divisor fields of the pesticide and crop-cost
calculators are never zero after parsing: the defaults 200 (water), 16
(tank), 100 (pesticide) and 1 (land) replace a missing field, a
non-numeric field and a field equal to 0 alike — so the divisions cannot
be by zero, and a deliberate zero for these fields cannot be expressed. -/
theorem divisor_fields_never_zero (i : PesticideInput) (j : CropCostInput) :
    pesticideWater i ≠ 0 ∧ pesticideTank i ≠ 0 ∧ pesticideQty i ≠ 0 ∧
    (parseCropCost j).land ≠ 0 ∧
    pesticideWater ⟨i.pesticideQuantity, some 0, i.tankSize⟩ = 200 ∧
    pesticideTank ⟨i.pesticideQuantity, i.waterQuantity, some 0⟩ = 16 ∧
    (parseCropCost ⟨some 0, j.seedCost, j.fertilizerCost, j.pesticideCost,
      j.labourCost, j.irrigationCost, j.otherCost⟩).land = 1 := by
  refine ⟨jsOr_ne_zero 200 (by norm_num) _, jsOr_ne_zero 16 (by norm_num) _,
    jsOr_ne_zero 100 (by norm_num) _, jsOr_ne_zero 1 (by norm_num) _,
    (jsOr_none_or_zero 200).2, (jsOr_none_or_zero 16).2,
    (jsOr_none_or_zero 1).2⟩

/-! ## Fixtures for concrete instances -/

/-- A farmer account with a bcrypt-hashed password. -/
def farmerAsha : Farmer := ⟨7, StoredCred.bcrypt "greenfield9", true⟩

/-- Farmer store holding exactly farmerAsha under phone 9876543210. -/
def demoFarmers : String → Option Farmer :=
  fun p => if p = "9876543210" then some farmerAsha else none

/-- Farmer store holding one account whose stored credential is a legacy
plaintext string. -/
def legacyFarmers : String → Option Farmer :=
  fun p => if p = "9876543210" then
    some ⟨7, StoredCred.legacy "sunflower1", true⟩ else none

/-- Empty login-OTP ledger. -/
def emptyLoginStore : String → Option LoginOtpEntry := fun _ => none

/-- Empty reset-OTP ledger. -/
def emptyResetStore : String → Option ResetOtpEntry := fun _ => none

/-- Login-OTP ledger holding a code that expired at time 1000. -/
def expiredLoginStore : String → Option LoginOtpEntry :=
  fun p => if p = "9876543210" then some ⟨"123456", 1000⟩ else none

/-- Reset-OTP ledger holding an unverified code that expired at 1000. -/
def expiredResetStore : String → Option ResetOtpEntry :=
  fun p => if p = "9876543210" then some ⟨"123456", 1000, false⟩ else none

/-- Reset-OTP ledger holding a verified code that expired at 1000. -/
def verifiedExpiredResetStore : String → Option ResetOtpEntry :=
  fun p => if p = "9876543210" then some ⟨"123456", 1000, true⟩ else none

/-- C9 (confirmed).  The send-OTP responses of both flows carry the
generated code (devOtp) only outside production: under NODE_ENV equal to
production the response is identical for any two generated codes and a
sent response always has devOtp none, while outside production the sent
response exposes the generated code. -/
theorem sendOtp_devOtp_only_dev (st : String → Option LoginOtpEntry)
    (rst : String → Option ResetOtpEntry) (farmers : String → Option Farmer)
    (phone o o1 o2 : String) (now : ℤ) (env : String) (f : Farmer) :
    ((loginSendOtp st farmers phone o1 now "production").1 =
      (loginSendOtp st farmers phone o2 now "production").1) ∧
    ((resetSendOtp rst farmers phone o1 now "production").1 =
      (resetSendOtp rst farmers phone o2 now "production").1) ∧
    (∀ dev, (loginSendOtp st farmers phone o now "production").1 =
      SendOtpOutcome.sent dev → dev = none) ∧
    (∀ dev, (resetSendOtp rst farmers phone o now "production").1 =
      SendOtpOutcome.sent dev → dev = none) ∧
    (indianMobile phone = true → farmers phone = some f →
      env ≠ "production" →
      (loginSendOtp st farmers phone o now env).1 =
        SendOtpOutcome.sent (some o) ∧
      (resetSendOtp rst farmers phone o now env).1 =
        SendOtpOutcome.sent (some o)) := by
  refine ⟨?_, ?_, ?_, ?_, fun hm hf he => ?_⟩
  · simp only [loginSendOtp]
    cases h1 : indianMobile phone <;> simp only [Bool.false_eq_true,
      not_false_eq_true, if_true, Bool.not_true, if_false] <;>
      cases h2 : farmers phone <;> simp
  · simp only [resetSendOtp]
    cases h1 : indianMobile phone <;> simp only [Bool.false_eq_true,
      not_false_eq_true, if_true, Bool.not_true, if_false] <;>
      cases h2 : farmers phone <;> simp
  · intro dev hdev
    simp only [loginSendOtp] at hdev
    cases h1 : indianMobile phone <;> rw [h1] at hdev <;>
      simp at hdev <;> cases h2 : farmers phone <;> rw [h2] at hdev <;>
      simp at hdev
    exact hdev.symm
  · intro dev hdev
    simp only [resetSendOtp] at hdev
    cases h1 : indianMobile phone <;> rw [h1] at hdev <;>
      simp at hdev <;> cases h2 : farmers phone <;> rw [h2] at hdev <;>
      simp at hdev
    exact hdev.symm
  · constructor
    · simp [loginSendOtp, hm, hf, he]
    · simp [resetSendOtp, hm, hf, he]

/-- Witness for sendOtp_devOtp_only_dev: under NODE_ENV development the
sent response for the demo farmer exposes the code 123456. -/
theorem sendOtp_devOtp_only_dev_witness :
    (loginSendOtp emptyLoginStore demoFarmers "9876543210" "123456" 0
      "development").1 = SendOtpOutcome.sent (some "123456") ∧
    (resetSendOtp emptyResetStore demoFarmers "9876543210" "123456" 0
      "development").1 = SendOtpOutcome.sent (some "123456") :=
  (sendOtp_devOtp_only_dev emptyLoginStore emptyResetStore demoFarmers
    "9876543210" "123456" "" "" 0 "development" farmerAsha).2.2.2.2
    (by decide) (by decide) (by decide)

/-- Admin store holding one legacy plaintext credential. -/
def legacyAdmins : String → Option Admin :=
  fun u => if u = "admin" then some ⟨1, StoredCred.legacy "letmein"⟩ else none

/-- Expert store holding one approved, active expert with a legacy
plaintext credential. -/
def legacyExperts : String → Option Expert :=
  fun u => if u = "drrao" then
    some ⟨3, StoredCred.legacy "plantdoc", true, "approved"⟩ else none

/-- Farmer store of a single farmer, used as the empty-start store for
registration instances. -/
def emptyFarmers : String → Option Farmer := fun _ => none

/-- C1 counterexample.  A farmer whose stored credential is the legacy
plaintext string sunflower1 cannot log in with that plaintext secret: the
farmer login route runs only bcrypt.compare against the stored string and
has no plaintext branch, so the claimed dual path does not exist for
farmer accounts. -/
theorem farmerLogin_no_plaintext_path :
    farmerLogin legacyFarmers "9876543210" "sunflower1" =
      LoginOutcome.invalidCredentials := by decide

/-- C1 (corrected).  The dual-path secret check (hash comparison when the
stored credential is in hash format, direct comparison otherwise) exists
for admin and expert logins, where a legacy plaintext credential logs in
with the matching plaintext secret; the farmer login route instead always
compares via bcrypt, so a legacy plaintext farmer credential never logs
in. -/
theorem login_dual_path_admin_expert_only
    (admins : String → Option Admin) (experts : String → Option Expert)
    (farmers : String → Option Farmer) (u p phone pw : String)
    (a : Admin) (e : Expert) (f : Farmer) :
    (u ≠ "" → p ≠ "" → admins u = some a →
      a.password = StoredCred.legacy p →
      adminLogin admins u p = LoginOutcome.ok a.id) ∧
    (u ≠ "" → p ≠ "" → experts u = some e →
      e.password = StoredCred.legacy p → e.isActive = true →
      e.status = "approved" →
      expertLogin experts u p = LoginOutcome.ok e.id) ∧
    (farmerLoginValid phone pw = true → farmers phone = some f →
      (∃ s, f.password = StoredCred.legacy s) →
      farmerLogin farmers phone pw = LoginOutcome.invalidCredentials) := by
  refine ⟨fun hu hp ha hpw => ?_, fun hu hp he hpw hact hst => ?_,
    fun hv hf hleg => ?_⟩
  · simp [adminLogin, hu, hp, ha, hpw, dualCheck, startsWithHashPrefix,
      plainCompare]
  · simp [expertLogin, hu, hp, he, hpw, hact, hst, dualCheck,
      startsWithHashPrefix, plainCompare]
  · obtain ⟨s, hs⟩ := hleg
    simp [farmerLogin, hv, hf, hs, bcryptCompare]

/-- Witness for login_dual_path_admin_expert_only: a legacy admin and a
legacy expert log in with their plaintext secrets, while the legacy farmer
is rejected even with a schema-valid password. -/
theorem login_dual_path_witness :
    adminLogin legacyAdmins "admin" "letmein" = LoginOutcome.ok 1 ∧
    expertLogin legacyExperts "drrao" "plantdoc" = LoginOutcome.ok 3 ∧
    farmerLogin legacyFarmers "9876543210" "wrongpass1" =
      LoginOutcome.invalidCredentials := by
  have h := login_dual_path_admin_expert_only legacyAdmins legacyExperts
    legacyFarmers "admin" "letmein" "9876543210" "wrongpass1"
    ⟨1, StoredCred.legacy "letmein"⟩
    ⟨3, StoredCred.legacy "plantdoc", true, "approved"⟩
    ⟨7, StoredCred.legacy "sunflower1", true⟩
  exact ⟨h.1 (by decide) (by decide) (by decide) rfl, by
    have h2 := login_dual_path_admin_expert_only legacyAdmins legacyExperts
      legacyFarmers "drrao" "plantdoc" "9876543210" "wrongpass1"
      ⟨1, StoredCred.legacy "letmein"⟩
      ⟨3, StoredCred.legacy "plantdoc", true, "approved"⟩
      ⟨7, StoredCred.legacy "sunflower1", true⟩
    exact h2.2.1 (by decide) (by decide) (by decide) rfl rfl rfl,
    h.2.2 (by decide) (by decide) ⟨"sunflower1", rfl⟩⟩

/-- C4 counterexample.  The register route accepts the phone 0123456789 —
ten digits starting with 0, which does not match the 6-to-9 Indian mobile
pattern the claim prescribes — and creates the account: the registration
schema only bounds the phone length between 10 and 15. -/
theorem register_accepts_nonpattern_phone :
    (registerFarmer emptyFarmers 1 "0123456789" "password1").1 =
      RegisterOutcome.created 1 ∧
    indianMobile "0123456789" = false ∧
    ((registerFarmer emptyFarmers 1 "0123456789" "password1").2
      "0123456789").isSome = true := by decide

/-- C4 (corrected).  Registration validates only lengths: phone between 10
and 15 characters of any shape and password of at least 4 characters.  A
request failing these length bounds gets a validation error and leaves the
store unchanged; a request passing them with a fresh phone creates the
account (with the bcrypt digest of the password); a duplicate phone is
rejected without change. -/
theorem register_length_validation (farmers : String → Option Farmer)
    (newId : ℕ) (phone password : String) :
    (farmerRegisterValid phone password = false →
      registerFarmer farmers newId phone password =
        (RegisterOutcome.validationError, farmers)) ∧
    (farmerRegisterValid phone password = true → farmers phone = none →
      (registerFarmer farmers newId phone password).1 =
        RegisterOutcome.created newId ∧
      (registerFarmer farmers newId phone password).2 phone =
        some ⟨newId, StoredCred.bcrypt password, true⟩) ∧
    (farmerRegisterValid phone password = true →
      (∃ f, farmers phone = some f) →
      registerFarmer farmers newId phone password =
        (RegisterOutcome.duplicatePhone, farmers)) := by
  refine ⟨fun hv => ?_, fun hv hfree => ?_, fun hv hdup => ?_⟩
  · simp [registerFarmer, hv]
  · constructor <;> simp [registerFarmer, hv, hfree]
  · obtain ⟨f, hf⟩ := hdup
    simp [registerFarmer, hv, hf]

/-- Witness for register_length_validation: a 5-character phone is
rejected with no store change, and a fresh length-valid phone (even one
starting with 0) is created. -/
theorem register_length_validation_witness :
    registerFarmer emptyFarmers 2 "12345" "abcd" =
      (RegisterOutcome.validationError, emptyFarmers) ∧
    (registerFarmer emptyFarmers 2 "0123456788" "gatekeeper").1 =
      RegisterOutcome.created 2 :=
  ⟨(register_length_validation emptyFarmers 2 "12345" "abcd").1 (by decide),
    ((register_length_validation emptyFarmers 2 "0123456788"
      "gatekeeper").2.1 (by decide) rfl).1⟩

/-- C5 counterexample.  If the second send happens to generate the same
code as the first (both draws are random), the first code still verifies
successfully after the second send, so verifying the first code after the
second was issued does not always fail with a mismatch. -/
theorem sendOtp_same_code_still_verifies :
    (loginVerifyOtp
      (loginSendOtp
        (loginSendOtp emptyLoginStore demoFarmers "9876543210" "123456" 0
          "production").2
        demoFarmers "9876543210" "123456" 0 "production").2
      demoFarmers 1 "9876543210" "123456").1 =
    VerifyOtpOutcome.success 7 := by decide

/-- C5 (corrected).  A second send for the same phone overwrites the
single ledger entry for that phone (the ledger keeps at most one
outstanding code per phone per flow), and verifying the first code after
the second was issued fails with a mismatch whenever the second generated
code differs from the first. -/
theorem sendOtp_overwrites_prior (st : String → Option LoginOtpEntry)
    (farmers : String → Option Farmer) (phone c1 c2 env : String)
    (t1 t2 now : ℤ) (f : Farmer) :
    indianMobile phone = true → farmers phone = some f →
    ((loginSendOtp (loginSendOtp st farmers phone c1 t1 env).2 farmers
        phone c2 t2 env).2 phone = some ⟨c2, t2 + otpLifetime⟩) ∧
    (phone ≠ "" → c1 ≠ "" → c1 ≠ c2 → ¬ t2 + otpLifetime < now →
      loginVerifyOtp
        (loginSendOtp (loginSendOtp st farmers phone c1 t1 env).2 farmers
          phone c2 t2 env).2 farmers now phone c1 =
      (VerifyOtpOutcome.mismatch,
        (loginSendOtp (loginSendOtp st farmers phone c1 t1 env).2 farmers
          phone c2 t2 env).2)) := by
  intro hm hf
  have hst2 : (loginSendOtp (loginSendOtp st farmers phone c1 t1 env).2
      farmers phone c2 t2 env).2 phone = some ⟨c2, t2 + otpLifetime⟩ := by
    simp [loginSendOtp, hm, hf, storeSet]
  refine ⟨hst2, fun hp hc hne hexp => ?_⟩
  simp only [loginVerifyOtp, hp, hc, or_self, if_false, hst2, hexp,
    if_true]
  simp [Ne.symm hne]

/-- Witness for sendOtp_overwrites_prior: codes 111111 then 222222 for the
demo farmer; the ledger holds 222222 and verifying 111111 mismatches. -/
theorem sendOtp_overwrites_prior_witness :
    ((loginSendOtp (loginSendOtp emptyLoginStore demoFarmers "9876543210"
        "111111" 0 "production").2 demoFarmers "9876543210" "222222" 5
        "production").2 "9876543210" = some ⟨"222222", 5 + otpLifetime⟩) ∧
    (loginVerifyOtp
      (loginSendOtp (loginSendOtp emptyLoginStore demoFarmers "9876543210"
        "111111" 0 "production").2 demoFarmers "9876543210" "222222" 5
        "production").2 demoFarmers 10 "9876543210" "111111").1 =
    VerifyOtpOutcome.mismatch := by
  have h := sendOtp_overwrites_prior emptyLoginStore demoFarmers
    "9876543210" "111111" "222222" "production" 0 5 10 farmerAsha
    (by decide) (by decide)
  exact ⟨h.1, by
    rw [h.2 (by decide) (by decide) (by decide) (by decide)]⟩

/-- C2 counterexample.  The reset route reads no clock: on a verified
record whose expiry 1000 lies before the present time 2000 the reset still
succeeds, so not every consuming operation fails past expiry. -/
theorem resetPassword_ignores_expiry :
    ((1000 : ℤ) < 2000) ∧
    verifiedExpiredResetStore "9876543210" = some ⟨"123456", 1000, true⟩ ∧
    (resetPassword verifiedExpiredResetStore demoFarmers "9876543210"
      "123456" "newpassw1").1 = ResetOutcome.success := by
  refine ⟨by decide, rfl, by decide⟩

/-- C2 (corrected).  Both verify routes enforce the expiry (failing with
expired and removing the record when now exceeds it), a successful login
verify consumes its record, and a successful reset consumes its record —
but the reset route itself performs no expiry check, so a verified reset
record stays usable past its expiry until consumed. -/
theorem otp_expiry_invariant (st : String → Option LoginOtpEntry)
    (rst : String → Option ResetOtpEntry) (farmers : String → Option Farmer)
    (now : ℤ) (phone otp newPassword : String) (e : LoginOtpEntry)
    (r : ResetOtpEntry) (f : Farmer) :
    (phone ≠ "" → otp ≠ "" → st phone = some e → e.expiresAt < now →
      loginVerifyOtp st farmers now phone otp =
        (VerifyOtpOutcome.expired, storeErase st phone)) ∧
    (phone ≠ "" → otp ≠ "" → rst phone = some r → r.expiresAt < now →
      resetVerifyOtp rst now phone otp =
        (VerifyOtpOutcome.expired, storeErase rst phone)) ∧
    (phone ≠ "" → otp ≠ "" → st phone = some e → ¬ e.expiresAt < now →
      e.otp = otp → farmers phone = some f → f.isActive = true →
      loginVerifyOtp st farmers now phone otp =
        (VerifyOtpOutcome.success f.id, storeErase st phone)) ∧
    (phone ≠ "" → otp ≠ "" → newPassword ≠ "" →
      ¬ newPassword.length < 8 → rst phone = some r → r.verified = true →
      r.otp = otp → farmers phone = some f →
      (resetPassword rst farmers phone otp newPassword).1 =
        ResetOutcome.success ∧
      (resetPassword rst farmers phone otp newPassword).2.1 phone =
        none) := by
  refine ⟨fun hp ho hst hexp => ?_, fun hp ho hst hexp => ?_,
    fun hp ho hst hexp hotp hf hact => ?_,
    fun hp ho hn hlen hst hver hotp hf => ?_⟩
  · simp [loginVerifyOtp, hp, ho, hst, hexp]
  · simp [resetVerifyOtp, hp, ho, hst, hexp]
  · simp [loginVerifyOtp, hp, ho, hst, hexp, hotp, hf, hact]
  · constructor <;>
      simp [resetPassword, hp, ho, hn, hlen, hst, hver, hotp, hf,
        storeErase]

/-- Witness for otp_expiry_invariant at concrete expired and live
ledgers. -/
theorem otp_expiry_invariant_witness :
    (loginVerifyOtp expiredLoginStore demoFarmers 2000 "9876543210"
      "123456" =
      (VerifyOtpOutcome.expired,
        storeErase expiredLoginStore "9876543210")) ∧
    (resetVerifyOtp expiredResetStore 2000 "9876543210" "123456" =
      (VerifyOtpOutcome.expired,
        storeErase expiredResetStore "9876543210")) ∧
    (resetPassword verifiedExpiredResetStore demoFarmers "9876543210"
      "123456" "newpassw1").2.1 "9876543210" = none := by
  have h := otp_expiry_invariant expiredLoginStore expiredResetStore
    demoFarmers 2000 "9876543210" "123456" "newpassw1" ⟨"123456", 1000⟩
    ⟨"123456", 1000, false⟩ farmerAsha
  have h2 := otp_expiry_invariant expiredLoginStore
    verifiedExpiredResetStore demoFarmers 2000 "9876543210" "123456"
    "newpassw1" ⟨"123456", 1000⟩ ⟨"123456", 1000, true⟩ farmerAsha
  refine ⟨h.1 (by decide) (by decide) rfl (by decide), ?_, ?_⟩
  · exact h.2.1 (by decide) (by decide) rfl (by decide)
  · exact (h2.2.2.2 (by decide) (by decide) (by decide) (by decide) rfl
      rfl rfl (by decide)).2

/-- C3 (confirmed).  A verify in either flow after the expiry fails with
expired and removes the record, and a second verify for the same phone and
the same code then fails with not-found. -/
theorem verifyOtp_expired_then_notFound (st : String → Option LoginOtpEntry)
    (rst : String → Option ResetOtpEntry) (farmers : String → Option Farmer)
    (now : ℤ) (phone otp : String) (e : LoginOtpEntry)
    (r : ResetOtpEntry) :
    (phone ≠ "" → otp ≠ "" → st phone = some e → e.expiresAt < now →
      loginVerifyOtp st farmers now phone otp =
        (VerifyOtpOutcome.expired, storeErase st phone) ∧
      (loginVerifyOtp (storeErase st phone) farmers now phone otp).1 =
        VerifyOtpOutcome.notFound) ∧
    (phone ≠ "" → otp ≠ "" → rst phone = some r → r.expiresAt < now →
      resetVerifyOtp rst now phone otp =
        (VerifyOtpOutcome.expired, storeErase rst phone) ∧
      (resetVerifyOtp (storeErase rst phone) now phone otp).1 =
        VerifyOtpOutcome.notFound) := by
  refine ⟨fun hp ho hst hexp => ?_, fun hp ho hst hexp => ?_⟩
  · constructor
    · simp [loginVerifyOtp, hp, ho, hst, hexp]
    · simp [loginVerifyOtp, hp, ho, storeErase]
  · constructor
    · simp [resetVerifyOtp, hp, ho, hst, hexp]
    · simp [resetVerifyOtp, hp, ho, storeErase]

/-- Witness for verifyOtp_expired_then_notFound on the expired fixtures at
time 2000. -/
theorem verifyOtp_expired_then_notFound_witness :
    ((loginVerifyOtp expiredLoginStore demoFarmers 2000 "9876543210"
        "123456").1 = VerifyOtpOutcome.expired ∧
      (loginVerifyOtp (storeErase expiredLoginStore "9876543210")
        demoFarmers 2000 "9876543210" "123456").1 =
        VerifyOtpOutcome.notFound) ∧
    ((resetVerifyOtp expiredResetStore 2000 "9876543210" "123456").1 =
        VerifyOtpOutcome.expired ∧
      (resetVerifyOtp (storeErase expiredResetStore "9876543210") 2000
        "9876543210" "123456").1 = VerifyOtpOutcome.notFound) := by
  have h := verifyOtp_expired_then_notFound expiredLoginStore
    expiredResetStore demoFarmers 2000 "9876543210" "123456"
    ⟨"123456", 1000⟩ ⟨"123456", 1000, false⟩
  have h1 := h.1 (by decide) (by decide) rfl (by decide)
  have h2 := h.2 (by decide) (by decide) rfl (by decide)
  exact ⟨⟨by rw [h1.1], h1.2⟩, ⟨by rw [h2.1], h2.2⟩⟩

end Kisandecks
